import Mathlib

/-!
Verification development for the books.toscrape.com scraping pipeline
(fetcher.py, parser.py, main.py, saver.py).

The Python modules are shallowly embedded:
* text is `String` / `List Char`; Python string methods (`lower`, `strip`,
  substring membership, `split`) are modelled character-exactly for ASCII;
* BeautifulSoup parse trees are modelled structurally: a list page is a raw
  string together with the list of `article.product_pod` containers the
  parser would find in it, each container carrying its optional `h3 > a`
  link and optional `p.price_color` element;
* Python `float()` is modelled as an exact-rational parser of finite
  decimal literals (sign, digits, decimal point, exponent); IEEE rounding
  is not modelled, so prices are exact rationals;
* fallible code returns `Except String`, a raised exception being `.error`;
* the network is an injected function `Nat → Option Html` (page number to
  fetched page, `none` for a failed fetch), and the unbounded crawl loop of
  `scrape_all_pages` is given explicit fuel;
* the CSV file is `Option Csv` (`none` = file does not exist), a `Csv`
  being the list of lines, each line a list of cells.
-/

namespace Books

/-! ## Python string primitives (ASCII-exact) -/

/-- Python `str.lower` restricted to ASCII letters (all text handled by the
scraper's heuristics is ASCII). -/
def pyLower (c : Char) : Char :=
  if 'A' ≤ c && c ≤ 'Z' then Char.ofNat (c.toNat + 32) else c

/-- The whitespace set stripped by Python `str.strip()`. -/
def pyIsSpace (c : Char) : Bool :=
  c = ' ' || c = '\t' || c = '\n' || c = '\r' || c = '\x0b' || c = '\x0c'

/-- Python `str.strip()` on a character list. -/
def pyStripL (s : List Char) : List Char :=
  ((s.dropWhile pyIsSpace).reverse.dropWhile pyIsSpace).reverse

/-- Python `str.strip()` on a `String`. -/
def pyStripS (s : String) : String :=
  ⟨pyStripL s.data⟩

/-- Python substring membership `needle in hay`. -/
def containsSub (needle : List Char) : List Char → Bool
  | [] => needle.isEmpty
  | c :: rest => needle.isPrefixOf (c :: rest) || containsSub needle rest

/-- The characters after the first occurrence of `sep`: `some` exactly
when `sep` occurs in `hay`. -/
def afterFirst (sep : List Char) : List Char → Option (List Char)
  | [] => if sep.isEmpty then some [] else none
  | c :: rest =>
    if sep.isPrefixOf (c :: rest) then some ((c :: rest).drop sep.length)
    else afterFirst sep rest

/-- The characters before the first occurrence of `sep` (the whole list if
`sep` does not occur), i.e. Python `hay.split(sep)[0]`. -/
def beforeFirst (sep : List Char) : List Char → List Char
  | [] => []
  | c :: rest =>
    if sep.isPrefixOf (c :: rest) then []
    else c :: beforeFirst sep rest

/-- Python `hay.split(sep)[1]` under the guard that `sep` occurs in
`hay`: the segment between the first occurrence of `sep` and the next
one (to the end of `hay` when there is no second occurrence). -/
def splitSecond (sep : List Char) (hay : List Char) : List Char :=
  beforeFirst sep ((afterFirst sep hay).getD [])

/-! ## Python float() on finite decimal literals, as exact rationals -/

/-- Numeric value of a digit string. -/
def digitsVal (l : List Char) : Nat :=
  l.foldl (fun n c => 10 * n + (c.toNat - 48)) 0

/-- Split a literal at the first exponent marker `e`/`E`. -/
def splitExp : List Char → List Char × Option (List Char)
  | [] => ([], none)
  | c :: rest =>
    if c = 'e' || c = 'E' then ([], some rest)
    else
      let p := splitExp rest
      (c :: p.1, p.2)

/-- Split a leading sign; `true` means negative. -/
def parseSign : List Char → Bool × List Char
  | '-' :: rest => (true, rest)
  | '+' :: rest => (false, rest)
  | s => (false, s)

/-- Unsigned decimal mantissa as an exact numerator/denominator pair (the
denominator a power of ten): `digits`, `digits.`, `digits.digits` or
`.digits`. -/
def parseUnsignedDec (s : List Char) : Option (Nat × Nat) :=
  let ip := s.takeWhile Char.isDigit
  let rest := s.dropWhile Char.isDigit
  match rest with
  | [] => if ip.isEmpty then none else some (digitsVal ip, 1)
  | '.' :: fp =>
    if fp.all Char.isDigit && !(ip.isEmpty && fp.isEmpty) then
      some (digitsVal ip * 10 ^ fp.length + digitsVal fp, 10 ^ fp.length)
    else none
  | _ => none

/-- Model of Python `float(s)` on finite decimal literals (optional sign,
digits with optional decimal point, optional signed exponent), as an exact
signed-numerator/denominator pair. Returns `none` where `float()` raises
`ValueError`. Special forms (`inf`, `nan`, digit-group underscores) are
outside the model; IEEE rounding is not modelled, values are exact. -/
def pyFloat? (s : List Char) : Option (Int × Nat) :=
  let me := splitExp s
  let sm := parseSign me.1
  match parseUnsignedDec sm.2 with
  | none => none
  | some nd =>
    let sn : Int := if sm.1 then -(nd.1 : Int) else (nd.1 : Int)
    match me.2 with
    | none => some (sn, nd.2)
    | some ex =>
      let se := parseSign ex
      if !se.2.isEmpty && se.2.all Char.isDigit then
        some (if se.1 then (sn, nd.2 * 10 ^ digitsVal se.2)
              else (sn * (10 : Int) ^ digitsVal se.2, nd.2))
      else none

/-- The rational value of a signed-numerator/denominator pair. -/
def ratOfParts (nd : Int × Nat) : ℚ :=
  (nd.1 : ℚ) / (nd.2 : ℚ)

/-! ## Structural model of a BeautifulSoup parse of a catalog page -/

/-- The `<a>` element nested in a container's `<h3>`: its `title` and `href`
attributes, each possibly absent. -/
structure ATag where
  title? : Option String
  href? : Option String
deriving DecidableEq

/-- The `<h3>` element of a container, holding at most one `<a>`. -/
structure H3Tag where
  a? : Option ATag
deriving DecidableEq

/-- One `article.product_pod` container: its `<h3>` (possibly absent — the
source does not guard this case) and the text of its `p.price_color`
element (absent when the element is missing). -/
structure Container where
  h3? : Option H3Tag
  price? : Option String
deriving DecidableEq

/-- A fetched page: the raw markup string (what `is_page_not_found` and the
emptiness tests inspect) together with the `article.product_pod` containers
BeautifulSoup would find in it. -/
structure Html where
  raw : String
  containers : List Container
deriving DecidableEq

/-- A list-page record: the insertion-ordered key/value pairs of the Python
dict built per container (`Title` first, then `Price`). -/
abbrev BookRec := List (String × String)

/-! ## parser.py -/

/-- `'Title' in book_info` / `'Price' in book_info`. -/
def hasKey (k : String) (r : BookRec) : Bool :=
  r.any (fun kv => kv.1 == k)

/-- The per-container loop body of `parse_books_from_html`: build
`book_info` (Title from the link's `title` attribute defaulted to `''` and
stripped, Price from the stripped price text), keep it only if both keys
are present. `book.find('h3')` returning `None` makes the subsequent
`.find('a')` raise `AttributeError`, modelled as `.error`. -/
def parse_containers : List Container → Except String (List BookRec)
  | [] => .ok []
  | c :: cs =>
    match c.h3? with
    | none => .error "AttributeError"
    | some h3 =>
      let info : BookRec :=
        (match h3.a? with
         | some a => [("Title", pyStripS (a.title?.getD ""))]
         | none => []) ++
        (match c.price? with
         | some p => [("Price", pyStripS p)]
         | none => [])
      match parse_containers cs with
      | .error e => .error e
      | .ok rest =>
        if hasKey "Title" info && hasKey "Price" info then .ok (info :: rest)
        else .ok rest

/-- `parse_books_from_html(html_content)`: empty markup short-circuits to
`[]`, otherwise the container scan runs. -/
def parse_books_from_html (h : Html) : Except String (List BookRec) :=
  if h.raw.data.isEmpty then .ok []
  else parse_containers h.containers

/-- The container loop of `get_book_urls`: a missing `<h3>` raises
(`AttributeError`), a missing `<a>` is skipped, an absent or empty `href`
is skipped (`if href:`). -/
def urls_of_containers : List Container → Except String (List String)
  | [] => .ok []
  | c :: cs =>
    match c.h3? with
    | none => .error "AttributeError"
    | some h3 =>
      match h3.a? with
      | none => urls_of_containers cs
      | some a =>
        let href := a.href?.getD ""
        match urls_of_containers cs with
        | .error e => .error e
        | .ok rest => .ok (if href.data.isEmpty then rest else href :: rest)

/-- `get_book_urls(html_content)`. -/
def get_book_urls (h : Html) : Except String (List String) :=
  if h.raw.data.isEmpty then .ok []
  else urls_of_containers h.containers

/-- The currency glyphs removed by `re.sub` in `clean_price`, including the
mis-encoding artifact. -/
def currencyGlyphs : List Char := ['£', '$', '€', '¥', 'Â']

/-- `clean_price(price_str)`: falsy input yields `0.0`; otherwise the glyphs
are removed anywhere in the string, the result is stripped and parsed as a
float, a `ValueError` yielding `0.0`. -/
def clean_price (s : String) : ℚ :=
  if s.data.isEmpty then 0
  else
    let cleaned := pyStripL (s.data.filter (fun c => !(currencyGlyphs.contains c)))
    match pyFloat? cleaned with
    | some nd => ratOfParts nd
    | none => 0

/-! ## main.py — termination heuristic -/

/-- The `not_found_indicators` list of `is_page_not_found`, pre-lowered as
in the source. -/
def not_found_indicators : List (List Char) :=
  [ ("page not found").data,
    ("404 not found").data,
    ("error 404").data,
    ("sorry, no results found").data,
    ("no results found").data ]

/-- The `for indicator in not_found_indicators` loop with its early
`return True`. -/
def checkIndicators : List (List Char) → List Char → Bool
  | [], _ => false
  | ind :: rest, lower =>
    if containsSub ind lower then true else checkIndicators rest lower

/-- The opening title tag searched by `is_page_not_found`. -/
def titleOpenTag : List Char := ("<title>").data

/-- The closing title tag searched by `is_page_not_found`. -/
def titleCloseTag : List Char := ("</title>").data

/-- The token searched for inside the title text. -/
def token404 : List Char := ("404").data

/-- `is_page_not_found(html_content)`: empty markup → `True`; any indicator
phrase in the lowercased markup → `True`; stripped length below 500 →
`True`; `'<title>'` present in the lowercased markup and `'404'` occurring
in `content_lower.split('<title>')[1].split('</title>')[0]` — the segment
between the first `'<title>'` and the next `'<title>'`, truncated at the
first `'</title>'` — → `True`; otherwise `False`. -/
def is_page_not_found (html_content : String) : Bool :=
  if html_content.data.isEmpty then true
  else
    let content_lower := html_content.data.map pyLower
    if checkIndicators not_found_indicators content_lower then true
    else if (pyStripL html_content.data).length < 500 then true
    else if containsSub titleOpenTag content_lower &&
        containsSub token404
          (beforeFirst titleCloseTag (splitSecond titleOpenTag content_lower)) then
      true
    else false

/-! ## main.py — crawl loops over an injected fetcher -/

/-- `scrape_single_page(page)` without the console output: a failed fetch
degrades to `[]`, otherwise the page is parsed (a parse of a malformed
container propagates as an exception). -/
def scrape_single_page (fetch : Nat → Option Html) (page : Nat) :
    Except String (List BookRec) :=
  match fetch page with
  | none => .ok []
  | some h => parse_books_from_html h

/-- `scrape_multiple_pages(start_page, num_pages)`: iterate the bounded
`range`, extending the aggregate while pages yield records and breaking at
the first page yielding none. Returns the aggregate together with the list
of page numbers actually fetched; the inter-request delay is not modelled.
-/
def scrape_multiple_pages (fetch : Nat → Option Html) :
    Nat → Nat → Except String (List BookRec × List Nat)
  | _, 0 => .ok ([], [])
  | start_page, n + 1 =>
    match scrape_single_page fetch start_page with
    | .error e => .error e
    | .ok [] => .ok ([], [start_page])
    | .ok books =>
      match scrape_multiple_pages fetch (start_page + 1) n with
      | .error e => .error e
      | .ok rt => .ok (books ++ rt.1, start_page :: rt.2)

/-- The `while True` loop of `scrape_all_pages`, with explicit fuel (`none`
means the fuel ran out before the loop terminated). State: current page,
`all_books` aggregate, number of fetch attempts made so far. The loop
breaks on a failed fetch, falsy markup, the `is_page_not_found` heuristic,
or an empty record list; otherwise it appends the page's records and
advances. -/
def scrape_all_pages_loop (fetch : Nat → Option Html) :
    Nat → Nat → List BookRec → Nat → Option (Except String (List BookRec × Nat))
  | 0, _, _, _ => none
  | fuel + 1, page, all_books, fetches =>
    match fetch page with
    | none => some (.ok (all_books, fetches + 1))
    | some h =>
      if h.raw.data.isEmpty then some (.ok (all_books, fetches + 1))
      else if is_page_not_found h.raw then some (.ok (all_books, fetches + 1))
      else
        match parse_books_from_html h with
        | .error e => some (.error e)
        | .ok [] => some (.ok (all_books, fetches + 1))
        | .ok books =>
          scrape_all_pages_loop fetch fuel (page + 1) (all_books ++ books) (fetches + 1)

/-- `scrape_all_pages(start_page)`: run the unbounded loop from
`start_page` with the given fuel, returning the aggregate and the number of
fetch attempts performed. -/
def scrape_all_pages (fetch : Nat → Option Html) (fuel start_page : Nat) :
    Option (Except String (List BookRec × Nat)) :=
  scrape_all_pages_loop fetch fuel start_page [] 0

/-! ## fetcher.py -/

/-- `fetch_html`'s retry loop: `attempt` ranges over
`range(retry_attempts)`; the transport is injected as `request`, mapping
the attempt index to `some text` (2xx response) or `none` (any
`RequestException`). Returns the result together with the number of HTTP
attempts performed; the 2-second backoff is not modelled. -/
def fetch_html_loop (request : Nat → Option String) :
    Nat → Nat → Option String × Nat
  | 0, made => (none, made)
  | remaining + 1, made =>
    match request made with
    | some text => (some text, made + 1)
    | none => fetch_html_loop request remaining (made + 1)

/-- `fetch_html(url, timeout, retry_attempts)` for a fixed url/timeout:
run the retry loop from attempt 0. With `retry_attempts = 0` the `for`
loop never runs and the function falls through to `None`. -/
def fetch_html (request : Nat → Option String) (retry_attempts : Nat) :
    Option String × Nat :=
  fetch_html_loop request retry_attempts 0

/-! ## saver.py -/

/-- A CSV file: a list of lines, each a list of cells. -/
abbrev Csv := List (List String)

/-- Column set of `pd.DataFrame(data)`: union of the records' keys in
order of first appearance. -/
def columnsOf (data : List BookRec) : List String :=
  data.foldl
    (fun cols r =>
      r.foldl (fun cs kv => if cs.contains kv.1 then cs else cs ++ [kv.1]) cols)
    []

/-- The cell a record contributes to a column (pandas `NaN` for a missing
key serializes as an empty cell). -/
def cellOf (r : BookRec) (col : String) : String :=
  match r.find? (fun kv => kv.1 == col) with
  | some kv => kv.2
  | none => ""

/-- `save_to_csv(data, filename, append)` against an explicit file state
(`none` = `filename` does not exist). `ioError` injects the exception
branch (`df.to_csv` raising, e.g. a permission error), in which case the
model keeps the prior file state — the source makes no guarantee about a
partially written file beyond what `to_csv` itself does. Header logic as in
the source: `header = not (append and os.path.exists(filename))`; mode
`'a'` appends the emitted lines, mode `'w'` replaces the file. -/
def save_to_csv (data : List BookRec) (file : Option Csv)
    (append ioError : Bool) : Bool × Option Csv :=
  if data.isEmpty then (false, file)
  else if ioError then (false, file)
  else
    let cols := columnsOf data
    let writeHeader := !(append && file.isSome)
    let newLines :=
      (if writeHeader then [cols] else []) ++ data.map (fun r => cols.map (cellOf r))
    if append then (true, some (file.getD [] ++ newLines))
    else (true, some newLines)

/-! ## Spec-side definitions (for refinement statements) -/

/-- The termination heuristic as the spec words it, for comparison with
`is_page_not_found`: absent markup → true; otherwise any phrase of the
fixed set occurring case-insensitively → true; otherwise trimmed length
below the threshold → true; otherwise a title element being present with
`404` in its text → true; otherwise false. -/
def isEndOfCatalogSpec (markup : String) : Bool :=
  if markup.data.isEmpty then true
  else
    let lower := markup.data.map pyLower
    if not_found_indicators.any (fun phrase => containsSub phrase lower) then true
    else if (pyStripL markup.data).length < 500 then true
    else if containsSub titleOpenTag lower &&
        containsSub token404
          (beforeFirst titleCloseTag (splitSecond titleOpenTag lower)) then
      true
    else false

/-- The record `parse_books_from_html` emits for a single container, if
any: one record per container having a nested link and a price element,
the `title` attribute defaulting to the empty string when absent. -/
def emittedRecord (c : Container) : Option BookRec :=
  match c.h3? with
  | none => none
  | some h3 =>
    match h3.a?, c.price? with
    | some a, some p =>
      some [("Title", pyStripS (a.title?.getD "")), ("Price", pyStripS p)]
    | _, _ => none

/-- A container contributes a record exactly when its nested link and its
price element are both present. -/
def hasLinkAndPrice (c : Container) : Bool :=
  (c.h3?.bind H3Tag.a?).isSome && c.price?.isSome

/-- Well-formedness as claim C1 words it: the nested link carries a
`title` attribute, and the price element is present. -/
def claimWellFormed (c : Container) : Bool :=
  (match c.h3?.bind H3Tag.a? with
   | some a => a.title?.isSome
   | none => false) && c.price?.isSome

/-- The records of pages `s, s+1, …, s+n-1` concatenated in ascending page
order. -/
def booksConcat (books : Nat → List BookRec) (s n : Nat) : List BookRec :=
  (List.range' s n).foldr (fun p acc => books p ++ acc) []

/-- The per-page goodness hypothesis of the exhaustive-crawl property: the
fetch of page `p` succeeds, the markup is non-empty and not classified as
end-of-catalog, and extraction succeeds with a non-empty record list. -/
def goodPage (fetch : Nat → Option Html) (pg : Nat → Html)
    (books : Nat → List BookRec) (p : Nat) : Prop :=
  fetch p = some (pg p) ∧ (pg p).raw.data.isEmpty = false ∧
    is_page_not_found (pg p).raw = false ∧
    parse_books_from_html (pg p) = .ok (books p) ∧ books p ≠ []

/-! ## Concrete fixtures -/

/-- A realistic first-page excerpt of the catalog: one valid
`article.product_pod` container, a benign title, length above the
threshold, no error phrase. -/
def sampleCatalogPage : String :=
  "<html><head><title>All products | Books to Scrape - Sandbox</title>" ++
  "<meta charset=\"utf-8\" /></head><body><div class=\"container-fluid page\">" ++
  "<section><ol class=\"row\"><li class=\"col-xs-6 col-sm-4 col-md-3 col-lg-3\">" ++
  "<article class=\"product_pod\"><div class=\"image_container\">" ++
  "<a href=\"catalogue/a-light-in-the-attic_1000/index.html\">" ++
  "<img src=\"media/cache/lightattic.jpg\" alt=\"A Light in the Attic\" " ++
  "class=\"thumbnail\" /></a></div>" ++
  "<p class=\"star-rating Three\"><i class=\"icon-star\"></i></p>" ++
  "<h3><a href=\"catalogue/a-light-in-the-attic_1000/index.html\" " ++
  "title=\"A Light in the Attic\">A Light in the ...</a></h3>" ++
  "<div class=\"product_price\"><p class=\"price_color\">£51.77</p>" ++
  "<p class=\"instock availability\"><i class=\"icon-ok\"></i> In stock</p>" ++
  "<form><button type=\"submit\" class=\"btn btn-primary btn-block\" " ++
  "data-loading-text=\"Adding...\">Add to basket</button></form>" ++
  "</div></article></li></ol></section></div></body></html>"

/-- Long markup whose second `'<title>'` occurs before the first
`'</title>'`: `split('<title>')[1]` is `'Welcome'`, which does not contain
`'404'`, so the heuristic must answer `false` — the `'404'` after the
second `'<title>'` lies outside the inspected segment. -/
def doubleTitlePage : String :=
  (⟨List.replicate 600 'a'⟩ : String) ++ "<title>Welcome<title>404</title>"

/-- A container whose link exists but carries no `title` attribute, with a
price element present — the claim C1 counterexample. -/
def cexContainer : Container := ⟨some ⟨some ⟨none, none⟩⟩, some "£1.00"⟩

/-- A page holding only `cexContainer`. -/
def cexPage : Html := ⟨"<html>catalog</html>", [cexContainer]⟩

/-- The output `parse_books_from_html` produces on `cexPage`. -/
def cexOutput : List BookRec := [[("Title", ""), ("Price", "£1.00")]]

/-- A container with no `<h3>` at all — the unguarded case of
`book.find('h3').find('a')`. -/
def noH3Container : Container := ⟨none, some "£5.00"⟩

/-- A page holding only `noH3Container`. -/
def noH3Page : Html :=
  ⟨"<article class=\"product_pod\"><p class=\"price_color\">£5.00</p></article>",
   [noH3Container]⟩

/-- A long, benign raw markup used by the crawl fixtures (above the
length threshold, no phrase, no title). -/
def longBenignRaw : String := ⟨List.replicate 600 'a'⟩

/-- The single container of the crawl fixture page. -/
def wContainer : Container := ⟨some ⟨some ⟨some "B1", some "b1.html"⟩⟩, some "£1.00"⟩

/-- The crawl fixture page: benign raw markup, one valid container. -/
def wPage : Html := ⟨longBenignRaw, [wContainer]⟩

/-- A terminal page whose markup carries the not-found phrase. -/
def wTermPage : Html := ⟨"Page Not Found", []⟩

/-- A one-page simulated catalog: page 1 is real, page 2 is the terminal
not-found page, everything beyond fails to fetch. -/
def wFetch : Nat → Option Html :=
  fun p => if p = 1 then some wPage else if p = 2 then some wTermPage else none

/-- The page function of the one-page simulated catalog. -/
def wPg : Nat → Html := fun p => if p = 1 then wPage else wTermPage

/-- The per-page records of the one-page simulated catalog. -/
def wBooks : Nat → List BookRec := fun _ => [[("Title", "B1"), ("Price", "£1.00")]]

/-- A mixed container list: a fully well-formed container, one whose `h3`
has no link, one with no price element, and one whose link lacks its
`title` attribute. -/
def wMixed : List Container :=
  [ ⟨some ⟨some ⟨some "Book One", some "b1.html"⟩⟩, some "£10.00"⟩,
    ⟨some ⟨none⟩, some "£11.00"⟩,
    ⟨some ⟨some ⟨some "Book Three", some "b3.html"⟩⟩, none⟩,
    cexContainer ]

/-- The records `parse_books_from_html` emits for `wMixed`. -/
def wMixedOut : List BookRec :=
  [ [("Title", "Book One"), ("Price", "£10.00")],
    [("Title", ""), ("Price", "£1.00")] ]

/-- Batch used by the persistence witnesses. -/
def wData : List BookRec := [[("Title", "A"), ("Price", "£1.00")]]

/-- Pre-existing CSV state used by the persistence witnesses. -/
def wOld : Csv := [["Title", "Price"], ["B", "£2.00"]]

/-! ## Helper lemmas -/

theorem checkIndicators_eq_any (l : List (List Char)) (s : List Char) :
    checkIndicators l s = l.any (fun p => containsSub p s) := by
  induction l with
  | nil => rfl
  | cons i rest ih =>
    cases h : containsSub i s <;> simp [checkIndicators, h, ih]

set_option maxRecDepth 1000000 in
/-- claim C2: `is_page_not_found` decides exactly the heuristic the spec
describes (empty markup, then phrase search, then length threshold, then
`404` in the title text — the text being `split('<title>')[1]` truncated
at `'</title>'` — else false); it is `false` on a normal catalog page
holding a valid record container, and `false` on long markup whose `404`
sits after a second `'<title>'`, outside the inspected segment. -/
theorem is_page_not_found_matches_spec :
    (∀ markup : String, is_page_not_found markup = isEndOfCatalogSpec markup)
  ∧ is_page_not_found sampleCatalogPage = false
  ∧ is_page_not_found doubleTitlePage = false := by
  refine ⟨?_, by decide, by decide⟩
  intro m
  unfold is_page_not_found isEndOfCatalogSpec
  simp only [checkIndicators_eq_any]

/-- claim C4: `clean_price` maps the four reference inputs to `51.77`,
`0.0`, `0.0` and `12.00` respectively, and on every input it strips the
currency glyph set, strips whitespace, and parses as a float with any
parse failure degrading to `0.0` (total, hence never raising). -/
theorem clean_price_spec :
    clean_price "£51.77" = (5177 : ℚ) / 100
  ∧ clean_price "" = 0
  ∧ clean_price "not a price" = 0
  ∧ clean_price "Â£12.00" = 12
  ∧ ∀ s : String,
      clean_price s
        = ((pyFloat? (pyStripL (s.data.filter (fun c => !(currencyGlyphs.contains c))))).map
            ratOfParts).getD 0 := by
  refine ⟨?_, by rfl, by rfl, ?_, fun s => ?_⟩
  · have h : pyFloat? (pyStripL ((String.data "£51.77").filter
        (fun c => !(currencyGlyphs.contains c)))) = some (5177, 100) := by decide
    simp only [clean_price, h, ratOfParts]
    norm_num
  · have h : pyFloat? (pyStripL ((String.data "Â£12.00").filter
        (fun c => !(currencyGlyphs.contains c)))) = some (1200, 100) := by decide
    simp only [clean_price, h, ratOfParts]
    norm_num
  · unfold clean_price
    rcases hd : s.data with _ | ⟨c, rest⟩
    · simp [hd, pyStripL, pyFloat?, splitExp, parseSign, parseUnsignedDec]
    · simp only [hd, List.isEmpty_cons, if_neg]
      rcases pyFloat? (pyStripL ((c :: rest).filter (fun c => !(currencyGlyphs.contains c)))) with
        _ | nd <;> simp

/-- claim C9 (code bug): a `product_pod` container with no `<h3>` makes
`book.find('h3')` return `None`, so the chained `.find('a')` raises
`AttributeError` in both `parse_books_from_html` and `get_book_urls` —
the extraction is not exception-free on arbitrary markup. -/
theorem parse_raises_on_container_without_h3 :
    parse_books_from_html noH3Page = .error "AttributeError"
  ∧ get_book_urls noH3Page = .error "AttributeError" :=
  ⟨rfl, rfl⟩

/-- counterexample to claim C1: `cexPage` holds zero well-formed
containers in the claim's sense (its link has no `title` attribute), yet
`parse_books_from_html` returns one record — the record count is not the
well-formed-container count, because a missing `title` attribute defaults
to an empty string rather than excluding the record. -/
theorem parse_books_counterexample :
    parse_books_from_html cexPage = .ok cexOutput
  ∧ cexPage.containers.countP claimWellFormed = 0
  ∧ cexOutput.length ≠ cexPage.containers.countP claimWellFormed := by
  refine ⟨rfl, rfl, by decide⟩

theorem emittedRecord_isSome_eq (c : Container) :
    (emittedRecord c).isSome = hasLinkAndPrice c := by
  rcases c with ⟨h3opt, popt⟩
  rcases h3opt with _ | ⟨aopt⟩
  · simp [emittedRecord, hasLinkAndPrice]
  · rcases aopt with _ | a <;> rcases popt with _ | p <;>
      simp [emittedRecord, hasLinkAndPrice]

theorem length_filterMap_emitted (cs : List Container) :
    (cs.filterMap emittedRecord).length = cs.countP hasLinkAndPrice := by
  induction cs with
  | nil => rfl
  | cons c cs ih =>
    rcases he : emittedRecord c with _ | r <;>
      have hl := emittedRecord_isSome_eq c <;> rw [he] at hl <;>
      simp [List.filterMap_cons, he, List.countP_cons, ← hl, ih]

theorem parse_containers_eq_filterMap (cs : List Container)
    (hh3 : ∀ c ∈ cs, c.h3?.isSome) :
    parse_containers cs = .ok (cs.filterMap emittedRecord) := by
  have hTT : (("Title" : String) == "Title") = true := by rfl
  have hTP : (("Title" : String) == "Price") = false := by rfl
  have hPP : (("Price" : String) == "Price") = true := by rfl
  induction cs with
  | nil => rfl
  | cons c cs ih =>
    have hc : c.h3?.isSome := hh3 c (List.mem_cons_self c cs)
    have ih2 := ih (fun d hd => hh3 d (List.mem_cons_of_mem c hd))
    rcases h3eq : c.h3? with _ | h3
    · rw [h3eq] at hc; simp at hc
    · rcases ha : h3.a? with _ | a <;> rcases hp : c.price? with _ | p <;>
        simp [parse_containers, h3eq, ha, hp, ih2, hasKey,
          List.filterMap_cons, emittedRecord, hTT, hTP, hPP]

/-- claim C1 (amended): over markup whose containers each contain an
`<h3>`, `parse_books_from_html` returns, in document order, exactly one
record per container having both a nested link and a price element — a
link missing its `title` attribute still contributes a record with an
empty Title — and containers lacking the link or the price element are
excluded without shifting the order of the rest. (As stated the claim
fails twice: a link without a `title` attribute is counted as found, see
`parse_books_counterexample`, and a container without an `<h3>` raises,
see the C9 record.) -/
theorem parse_books_filterMap (raw : String) (cs : List Container)
    (hraw : raw.data.isEmpty = false) (hh3 : ∀ c ∈ cs, c.h3?.isSome) :
    parse_books_from_html ⟨raw, cs⟩ = .ok (cs.filterMap emittedRecord)
  ∧ (cs.filterMap emittedRecord).length = cs.countP hasLinkAndPrice := by
  refine ⟨?_, length_filterMap_emitted cs⟩
  unfold parse_books_from_html
  simp only [hraw, Bool.false_eq_true, if_false]
  exact parse_containers_eq_filterMap cs hh3

/-- witness for the amended claim C1 at a concrete mixed container list. -/
theorem parse_books_filterMap_witness :
    parse_books_from_html ⟨"<html>x</html>", wMixed⟩ = .ok wMixedOut
  ∧ wMixedOut.length = wMixed.countP hasLinkAndPrice := by
  have h := parse_books_filterMap "<html>x</html>" wMixed (by rfl) (by decide)
  refine ⟨by rw [h.1]; rfl, ?_⟩
  rw [show wMixedOut = wMixed.filterMap emittedRecord from rfl]
  exact h.2

theorem parse_containers_shape (cs : List Container) (recs : List BookRec)
    (h : parse_containers cs = .ok recs) :
    ∀ r ∈ recs, ∃ t p, r = [("Title", t), ("Price", p)] := by
  have hTT : (("Title" : String) == "Title") = true := by rfl
  have hTP : (("Title" : String) == "Price") = false := by rfl
  have hPP : (("Price" : String) == "Price") = true := by rfl
  induction cs generalizing recs with
  | nil =>
    simp [parse_containers] at h
    subst h; simp
  | cons c cs ih =>
    rcases h3eq : c.h3? with _ | h3
    · simp [parse_containers, h3eq] at h
    · rcases hrec : parse_containers cs with e | rest
      · simp [parse_containers, h3eq, hrec] at h
      · have ihr := ih rest hrec
        rcases ha : h3.a? with _ | a <;> rcases hp : c.price? with _ | p <;>
          simp [parse_containers, h3eq, ha, hp, hrec, hasKey, hTT, hTP, hPP] at h <;>
          subst h
        · exact ihr
        · exact ihr
        · exact ihr
        · intro r hr
          rcases List.mem_cons.mp hr with hr | hr
          · exact ⟨_, _, hr⟩
          · exact ihr r hr

/-- claim C10: every record emitted by `parse_books_from_html` holds
exactly the two keys Title and Price, in that insertion order; and a
container whose link exists but lacks a `title` attribute still yields a
record, its Title value the empty string, because the extraction defaults
the attribute to the empty string and counts the field as found. -/
theorem records_exactly_title_price :
    (∀ (h : Html) (recs : List BookRec), parse_books_from_html h = .ok recs →
        ∀ r ∈ recs, ∃ t p, r = [("Title", t), ("Price", p)])
  ∧ (∀ (href : Option String) (price raw : String), raw.data.isEmpty = false →
        parse_books_from_html ⟨raw, [⟨some ⟨some ⟨none, href⟩⟩, some price⟩]⟩
          = .ok [[("Title", ""), ("Price", pyStripS price)]]) := by
  constructor
  · intro h recs hok r hr
    unfold parse_books_from_html at hok
    rcases hemp : h.raw.data.isEmpty with _ | _
    · rw [hemp] at hok
      simp only [Bool.false_eq_true, if_false] at hok
      exact parse_containers_shape h.containers recs hok r hr
    · rw [hemp] at hok
      simp only [if_true] at hok
      cases hok
      simp at hr
  · intro href price raw hraw
    have hTT : (("Title" : String) == "Title") = true := by rfl
    have hTP : (("Title" : String) == "Price") = false := by rfl
    have hPP : (("Price" : String) == "Price") = true := by rfl
    have hstrip : pyStripS "" = "" := by rfl
    unfold parse_books_from_html
    simp [hraw, parse_containers, hasKey, hTT, hTP, hPP, hstrip]

/-- witness for claim C10: the record-shape property and the
defaulted-Title behaviour at concrete inputs. -/
theorem records_exactly_title_price_witness :
    (∃ t p, ([("Title", ""), ("Price", "£1.00")] : BookRec) = [("Title", t), ("Price", p)])
  ∧ parse_books_from_html
      ⟨"<html>x</html>", [⟨some ⟨some ⟨none, some "u.html"⟩⟩, some " £2.00 "⟩]⟩
      = .ok [[("Title", ""), ("Price", "£2.00")]] := by
  constructor
  · exact records_exactly_title_price.1 cexPage cexOutput rfl _ (by decide)
  · have h := records_exactly_title_price.2 (some "u.html") " £2.00 " "<html>x</html>" (by rfl)
    rw [h]; rfl

theorem fetch_html_loop_all_fail (request : Nat → Option String) :
    ∀ remaining made, (∀ i, made ≤ i → i < made + remaining → request i = none) →
      fetch_html_loop request remaining made = (none, made + remaining) := by
  intro remaining
  induction remaining with
  | zero => intro made _; rfl
  | succ r ih =>
    intro made hfail
    have h0 : request made = none := hfail made (Nat.le_refl made) (by omega)
    have hrec := ih (made + 1) (fun i h1 h2 => hfail i (by omega) (by omega))
    unfold fetch_html_loop
    rw [h0]
    have harith : made + (r + 1) = made + 1 + r := by omega
    rw [harith]
    exact hrec

/-- claim C7: when every attempted request fails at the transport level,
`fetch_html` performs exactly `retry_attempts` attempts and returns the
failure signal `None` to the caller instead of raising. -/
theorem fetch_html_exhausts_to_none (request : Nat → Option String)
    (retry_attempts : Nat)
    (hfail : ∀ i, i < retry_attempts → request i = none) :
    fetch_html request retry_attempts = (none, retry_attempts) := by
  have h := fetch_html_loop_all_fail request retry_attempts 0
    (fun i _ h2 => hfail i (by omega))
  simpa [fetch_html] using h

/-- witness for claim C7: an always-failing transport with three retry
attempts. -/
theorem fetch_html_exhausts_to_none_witness :
    fetch_html (fun _ => none) 3 = (none, 3) :=
  fetch_html_exhausts_to_none (fun _ => none) 3 (fun _ _ => rfl)

/-- claim C8: `save_to_csv` reports `False` exactly on empty input or an
I/O error during the write, `True` exactly when the write succeeded, and
on empty input the destination file is untouched. -/
theorem save_to_csv_result_flag (data : List BookRec) (file : Option Csv)
    (append ioError : Bool) :
    ((save_to_csv data file append ioError).1 = (!data.isEmpty && !ioError))
  ∧ (data = [] → (save_to_csv data file append ioError).2 = file) := by
  constructor
  · rcases hd : data with _ | ⟨r, rest⟩ <;> cases ioError <;> cases append <;>
      simp [save_to_csv]
  · intro h
    subst h
    rfl

/-- witness for claim C8: empty input yields `False` and leaves the
(absent) destination untouched. -/
theorem save_to_csv_result_flag_witness :
    ((save_to_csv [] none false false).1
        = (!(List.isEmpty ([] : List BookRec)) && !false))
  ∧ (save_to_csv [] none false false).2 = none :=
  ⟨(save_to_csv_result_flag [] none false false).1,
   (save_to_csv_result_flag [] none false false).2 rfl⟩

/-- claim C6: in append mode against an existing destination, the prior
header and rows are preserved as a prefix and exactly `data.length` new
data rows are added with no second header; in overwrite mode the prior
file state is ignored and the output is a header row followed by the data
rows. -/
theorem save_to_csv_modes (data : List BookRec) (hne : data ≠ [])
    (old : Csv) (file : Option Csv) :
    save_to_csv data (some old) true false
      = (true, some (old ++ data.map (fun r => (columnsOf data).map (cellOf r))))
  ∧ (data.map (fun r => (columnsOf data).map (cellOf r))).length = data.length
  ∧ save_to_csv data file false false
      = (true, some ((columnsOf data) :: data.map (fun r => (columnsOf data).map (cellOf r)))) := by
  have hd : data.isEmpty = false := by
    rcases data with _ | ⟨r, rest⟩
    · exact absurd rfl hne
    · rfl
  refine ⟨?_, List.length_map data _, ?_⟩ <;> simp [save_to_csv, hd]

/-- witness for claim C6 on a concrete batch and a concrete pre-existing
file. -/
theorem save_to_csv_modes_witness :
    save_to_csv wData (some wOld) true false
      = (true, some [["Title", "Price"], ["B", "£2.00"], ["A", "£1.00"]])
  ∧ save_to_csv wData none false false
      = (true, some [["Title", "Price"], ["A", "£1.00"]]) := by
  have h := save_to_csv_modes wData (by decide) wOld none
  exact ⟨by rw [h.1]; rfl, by rw [h.2.2]; rfl⟩

/-- claim C5: a bounded run of `scrape_multiple_pages` with `num_pages =
M` fetches exactly an initial page interval `start_page, …, start_page +
j - 1` with `j ≤ M` — never a page beyond `start_page + M - 1` — every
non-final fetched page yielded a non-empty record list, and an early stop
(`j < M`) happens only because the last fetched page yielded zero records
(covering both a failed fetch and an empty parse); the end-of-catalog
heuristic plays no part in this mode. -/
theorem scrape_multiple_pages_bounded (fetch : Nat → Option Html) :
    ∀ (num_pages start_page : Nat) (out : List BookRec × List Nat),
      scrape_multiple_pages fetch start_page num_pages = .ok out →
      ∃ j, j ≤ num_pages ∧ out.2 = List.range' start_page j
        ∧ (j < num_pages →
            0 < j ∧ scrape_single_page fetch (start_page + (j - 1)) = .ok [])
        ∧ (∀ i, i + 1 < j → scrape_single_page fetch (start_page + i) ≠ .ok []) := by
  intro num_pages
  induction num_pages with
  | zero =>
    intro s out hrun
    simp [scrape_multiple_pages] at hrun
    refine ⟨0, Nat.le_refl 0, ?_, fun h => absurd h (by omega), fun i hi => absurd hi (by omega)⟩
    rw [← hrun]
    rfl
  | succ n ih =>
    intro s out hrun
    rcases hs : scrape_single_page fetch s with e | books
    · simp [scrape_multiple_pages, hs] at hrun
    · rcases books with _ | ⟨b, bs⟩
      · simp [scrape_multiple_pages, hs] at hrun
        refine ⟨1, by omega, ?_, fun _ => ⟨by omega, by simpa using hs⟩,
          fun i hi => absurd hi (by omega)⟩
        rw [← hrun, List.range'_one]
      · rcases hr : scrape_multiple_pages fetch (s + 1) n with e | rt
        · simp [scrape_multiple_pages, hs, hr] at hrun
        · simp only [scrape_multiple_pages, hs, hr] at hrun
          obtain ⟨j, hjle, hjtr, hjstop, hjne⟩ := ih (s + 1) rt hr
          injection hrun with hrun
          subst hrun
          refine ⟨j + 1, by omega, ?_, ?_, ?_⟩
          · simp only [List.range'_succ]
            rw [← hjtr]
          · intro hlt
            obtain ⟨hj0, hstop⟩ := hjstop (by omega)
            refine ⟨by omega, ?_⟩
            have harith : s + (j + 1 - 1) = s + 1 + (j - 1) := by omega
            rw [harith]
            exact hstop
          · intro i hi
            rcases i with _ | i
            · simp [hs]
            · have harith : s + (i + 1) = s + 1 + i := by omega
              rw [harith]
              exact hjne i (by omega)

/-- witness for claim C5 on the one-page simulated catalog with a bound of
three pages: pages 1 and 2 are fetched, page 2 yields zero records. -/
theorem scrape_multiple_pages_bounded_witness :
    ∃ j, j ≤ 3
      ∧ (([[("Title", "B1"), ("Price", "£1.00")]], [1, 2]) : List BookRec × List Nat).2
          = List.range' 1 j
      ∧ (j < 3 → 0 < j ∧ scrape_single_page wFetch (1 + (j - 1)) = .ok [])
      ∧ (∀ i, i + 1 < j → scrape_single_page wFetch (1 + i) ≠ .ok []) :=
  scrape_multiple_pages_bounded wFetch 3 1
    ([[("Title", "B1"), ("Price", "£1.00")]], [1, 2]) rfl

theorem booksConcat_zero (books : Nat → List BookRec) (s : Nat) :
    booksConcat books s 0 = [] := rfl

theorem booksConcat_succ (books : Nat → List BookRec) (s n : Nat) :
    booksConcat books s (n + 1) = books s ++ booksConcat books (s + 1) n := by
  unfold booksConcat
  rw [List.range'_succ]
  rfl

theorem scrape_all_pages_loop_run (fetch : Nat → Option Html)
    (pg : Nat → Html) (books : Nat → List BookRec) (tpg : Html) :
    ∀ n s acc nf fuel, n + 1 ≤ fuel →
      (∀ p, s ≤ p → p < s + n → goodPage fetch pg books p) →
      fetch (s + n) = some tpg → is_page_not_found tpg.raw = true →
      scrape_all_pages_loop fetch fuel s acc nf
        = some (.ok (acc ++ booksConcat books s n, nf + n + 1)) := by
  intro n
  induction n with
  | zero =>
    intro s acc nf fuel hfuel hgood hfetch hnf
    rcases fuel with _ | f
    · omega
    · unfold scrape_all_pages_loop
      rw [Nat.add_zero] at hfetch
      rw [hfetch]
      rcases hemp : tpg.raw.data.isEmpty with _ | _ <;>
        simp [hemp, hnf, booksConcat_zero]
  | succ n ih =>
    intro s acc nf fuel hfuel hgood hfetch hnf
    rcases fuel with _ | f
    · omega
    · obtain ⟨hgf, hgemp, hgnf, hgparse, hgne⟩ := hgood s (Nat.le_refl s) (by omega)
      unfold scrape_all_pages_loop
      rw [hgf]
      simp only [hgemp, hgnf, hgparse, Bool.false_eq_true, if_false]
      rcases hbs : books s with _ | ⟨b, bs⟩
      · exact absurd hbs hgne
      · have ihr := ih (s + 1) (acc ++ books s) (nf + 1) f (by omega)
          (fun p h1 h2 => hgood p (by omega) (by omega))
          (by rw [show s + 1 + n = s + (n + 1) from by omega]; exact hfetch) hnf
        rw [hbs] at ihr
        rw [ihr, booksConcat_succ, hbs, List.append_assoc]
        have harith : nf + 1 + n + 1 = nf + (n + 1) + 1 := by omega
        rw [harith]

/-- claim C3: over a simulated catalog of exactly `K` pages (`K ≥ 1`)
whose page `K + 1` is a terminal not-found page, the exhaustive crawl
starting at page 1 returns the records of pages `1..K` concatenated in
ascending page order with in-page order preserved, and performs exactly
`K + 1` fetch attempts, the last one detecting termination. -/
theorem scrape_all_pages_exhaustive (fetch : Nat → Option Html)
    (pg : Nat → Html) (books : Nat → List BookRec) (K : Nat) (_hK : 1 ≤ K)
    (hgood : ∀ p, 1 ≤ p → p ≤ K → goodPage fetch pg books p)
    (tpg : Html) (hfetch : fetch (K + 1) = some tpg)
    (hnf : is_page_not_found tpg.raw = true)
    (fuel : Nat) (hfuel : K + 1 ≤ fuel) :
    scrape_all_pages fetch fuel 1 = some (.ok (booksConcat books 1 K, K + 1)) := by
  have h := scrape_all_pages_loop_run fetch pg books tpg K 1 [] 0 fuel (by omega)
    (fun p h1 h2 => hgood p h1 (by omega))
    (by rw [show 1 + K = K + 1 from by omega]; exact hfetch) hnf
  simpa [scrape_all_pages] using h

set_option maxRecDepth 1000000 in
/-- witness for claim C3 on the one-page simulated catalog (`K = 1`): two
fetch attempts, the records of page 1. -/
theorem scrape_all_pages_exhaustive_witness :
    scrape_all_pages wFetch 2 1
      = some (.ok ([[("Title", "B1"), ("Price", "£1.00")]], 2)) := by
  have h := scrape_all_pages_exhaustive wFetch wPg wBooks 1 (by omega)
    (by
      intro p h1 h2
      have hp : p = 1 := by omega
      subst hp
      exact ⟨rfl, rfl, by decide, rfl, by decide⟩)
    wTermPage rfl (by decide) 2 (by omega)
  rw [h]
  rfl

end Books
